import Mathlib

/-!
Verification of the canary-deployment control plane (`app/` of the
mlops_example repository): the model variant store (`app/core/state.py`),
the admin transitions (`app/api/admin.py`), the traffic router
(`app/services/inference.py`), the health checker (`app/utils/stats.py`)
and the status endpoint (`app/main.py`), shallowly embedded as pure
functions over an explicit application state.

Modelling conventions:
* model handles are opaque `Nat` ids; `joblib.load` is modelled by an
  environment `FS` giving, per path, whether the file exists
  (`os.path.exists`), whether loading succeeds, and the handle produced;
* Python floats are modelled as `ℚ`; scipy's Welch t-test p-value is an
  arbitrary function parameter `pval` (its numerics are opaque to the
  control flow being verified);
* a raised exception is an `Except`-style error constructor, paired with
  the state as mutated up to the raise point;
* `state.alert_status` is a dict that is either `{}` or
  `{"alert_triggered": b}`; it is modelled as `Option Bool`, and
  `alert_status.get("alert_triggered", False)` as `Option.getD · false`.
-/

set_option linter.unusedVariables false

namespace MLOps

/-- The file-system / loader environment: `fexists p` is `os.path.exists(p)`,
`loadOk p` tells whether `joblib.load(p)` succeeds, and `handleOf p` is the
(opaque id of the) object it returns when it succeeds. -/
structure FS where
  fexists : String → Bool
  loadOk : String → Bool
  handleOf : String → Nat

/-- Python truthiness of an optional path: `if not model_path` is taken when
the path is `None` or the empty string (state.py line 30). -/
def pathIsFalsy : Option String → Bool
  | none => true
  | some s => s.isEmpty

/-- `ModelManager` (state.py lines 20-65): the stable path
(`_stable_model_path`), the optional canary path (`_canary_model_path`) and
the memoization cache `_model_cache`, modelled as an association list from
path to handle. -/
structure ModelManager where
  stable_model_path : String
  canary_model_path : Option String
  cache : List (String × Nat)
deriving DecidableEq, Repr

/-- `ModelManager.__init__` (state.py lines 23-26). -/
def initModelManager : ModelManager :=
  { stable_model_path := "models/model_v1.joblib", canary_model_path := none, cache := [] }

/-- Dict membership/lookup for the model cache (`model_path in self._model_cache`). -/
def lookupCache (p : String) : List (String × Nat) → Option Nat
  | [] => none
  | (q, h) :: rest => if q = p then some h else lookupCache p rest

/-- `ModelManager.get_model` (state.py lines 28-40).  Returns the model
handle (`none` when the path is falsy), the updated manager, and the number
of underlying `joblib.load` calls this invocation performed (0 or 1);
`.error ()` when `joblib.load` raises, in which case the cache is unchanged. -/
def ModelManager.get_model (fs : FS) (mm : ModelManager) (model_path : Option String) :
    Except Unit (Option Nat × ModelManager × Nat) :=
  if pathIsFalsy model_path then .ok (none, mm, 0)
  else
    let p := model_path.getD ""
    match lookupCache p mm.cache with
    | some h => .ok (some h, mm, 0)
    | none =>
      if fs.loadOk p then
        .ok (some (fs.handleOf p), { mm with cache := (p, fs.handleOf p) :: mm.cache }, 1)
      else .error ()

/-- Per-variant latency sequences: `state.canary_metrics` with its
`"stable"/"canary" → {"latencies_ms": [...]}` shape flattened to the two
lists (state.py lines 83-86). -/
structure Metrics where
  stable : List ℚ
  canary : List ℚ
deriving DecidableEq, Repr

/-- The reset value `{"stable": {"latencies_ms": []}, "canary": {"latencies_ms": []}}`. -/
def emptyMetrics : Metrics := { stable := [], canary := [] }

/-- The process-wide mutable state of `app.core.state`: the model manager,
`canary_start_time`, `alert_status` (as `Option Bool`, see module header),
`canary_metrics` and `simulate_slowdown`. -/
structure AppState where
  mm : ModelManager
  canary_start_time : Option String
  alert_status : Option Bool
  metrics : Metrics
  simulate_slowdown : Bool
deriving DecidableEq, Repr

/-- The state at process start (state.py lines 67-92). -/
def initState : AppState :=
  { mm := initModelManager, canary_start_time := none, alert_status := none,
    metrics := emptyMetrics, simulate_slowdown := false }

/-- Module-level `canary_model()` (state.py lines 78-79):
`model_manager.get_model(_canary_model_path)`, threading the manager through
the application state. -/
def canary_model (fs : FS) (st : AppState) : Except Unit (Option Nat × AppState) :=
  match st.mm.get_model fs st.mm.canary_model_path with
  | .error _ => .error ()
  | .ok (h, mm', _) => .ok (h, { st with mm := mm' })

/-- Module-level `stable_model()` (state.py lines 75-76). -/
def stable_model (fs : FS) (st : AppState) : Except Unit (Option Nat × AppState) :=
  match st.mm.get_model fs (some st.mm.stable_model_path) with
  | .error _ => .error ()
  | .ok (h, mm', _) => .ok (h, { st with mm := mm' })

/-- `os.path.basename` for POSIX paths: the part after the last `/`
(empty when the path ends in `/`). -/
def basename (s : String) : String :=
  ⟨(s.data.reverse.takeWhile (fun c => c ≠ '/')).reverse⟩

/-- Result of `deploy_canary`: HTTP 404 when the file does not exist, HTTP
400 when loading fails, or the success payload. -/
inductive DeployResult where
  | notFound
  | loadError
  | success (model_path canary_start_time : String)
deriving DecidableEq, Repr

/-- `deploy_canary` (admin.py lines 22-67).  `now` is
`datetime.datetime.now().isoformat()`.  Faithful to the source order: the
manager's `canary_model_path` is assigned (line 43) *before* the test load
(line 45), so a load failure raises HTTP 400 with the new canary path
already in place. -/
def deploy_canary (fs : FS) (now : String) (st : AppState) (model_path : String) :
    DeployResult × AppState :=
  if fs.fexists model_path = false then (.notFound, st)
  else
    let mm1 := { st.mm with canary_model_path := some model_path }
    match mm1.get_model fs mm1.canary_model_path with
    | .error _ => (.loadError, { st with mm := mm1 })
    | .ok (_, mm2, _) =>
        (.success model_path now,
         { st with mm := mm2, canary_start_time := some now, alert_status := none,
                   metrics := emptyMetrics })

/-- Result of `rollback_canary`: a propagated exception from the
`state.canary_model()` precondition call, the reported
"No active canary to rollback" error, or success. -/
inductive RollbackResult where
  | raised
  | noActiveCanary
  | success
deriving DecidableEq, Repr

/-- `rollback_canary` (admin.py lines 69-103). -/
def rollback_canary (fs : FS) (st : AppState) : RollbackResult × AppState :=
  match canary_model fs st with
  | .error _ => (.raised, st)
  | .ok (none, st1) => (.noActiveCanary, st1)
  | .ok (some _, st1) =>
      (.success,
       { st1 with mm := { st1.mm with canary_model_path := none },
                  canary_start_time := none, alert_status := none, metrics := emptyMetrics })

/-- Result of `promote_canary`: propagated exception, one of the two
reported errors, or success carrying the two basenames returned in the
response. -/
inductive PromoteResult where
  | raised
  | noActiveCanary
  | activeAlerts
  | success (previous_stable_model new_stable_model : String)
deriving DecidableEq, Repr

/-- `promote_canary` (admin.py lines 105-159).  In the success branch the
canary path is necessarily set (the `canary_model()` guard returned a
non-`None` handle), so reading it with default `""` is exact. -/
def promote_canary (fs : FS) (st : AppState) : PromoteResult × AppState :=
  match canary_model fs st with
  | .error _ => (.raised, st)
  | .ok (none, st1) => (.noActiveCanary, st1)
  | .ok (some _, st1) =>
      if st1.alert_status.getD false then (.activeAlerts, st1)
      else
        let previous_stable_model := st1.mm.stable_model_path
        let canary_path := (st1.mm.canary_model_path).getD ""
        (.success (basename previous_stable_model) (basename canary_path),
         { st1 with mm := { st1.mm with stable_model_path := canary_path,
                                        canary_model_path := none },
                    canary_start_time := none, alert_status := none,
                    metrics := emptyMetrics })

/-- `toggle_slowdown` (admin.py lines 161-185): flips the flag and returns
its new value. -/
def toggle_slowdown (st : AppState) : Bool × AppState :=
  (!st.simulate_slowdown, { st with simulate_slowdown := !st.simulate_slowdown })

/-- The variant a request was served by (`model_name` in inference.py). -/
inductive Variant where
  | stable
  | canary
deriving DecidableEq, Repr

/-- Result of `route_prediction`: a propagated exception (model load
failure, or `predict_proba` on a `None` model), or the served variant. -/
inductive RouteResult where
  | raised
  | served (v : Variant)
deriving DecidableEq, Repr

/-- `route_prediction` (inference.py lines 18-80).  `timestamp` is
`int(time.time() * 1000)` extracted from the request id; `latency_ms` is the
wall-clock latency measurement, an input of the model (real time is outside
the embedding).  The churn probability is opaque and elided from the result.
Faithful to the source: `state.canary_model()` is called for the
`use_canary` test (line 34) and the chosen model is then resolved by a
second `canary_model()` / `stable_model()` call (line 35); the latency is
appended to the chosen variant's sequence (line 70) only when no exception
was raised before it. -/
def route_prediction (fs : FS) (timestamp : ℕ) (latency_ms : ℚ) (st : AppState) :
    RouteResult × AppState :=
  match canary_model fs st with
  | .error _ => (.raised, st)
  | .ok (cm, st1) =>
    let use_canary := cm.isSome && (timestamp % 10 == 0)
    match (if use_canary then canary_model fs st1 else stable_model fs st1) with
    | .error _ => (.raised, st1)
    | .ok (none, st2) => (.raised, st2)
    | .ok (some _, st2) =>
      let model_name : Variant := if use_canary then .canary else .stable
      let newMetrics :=
        if use_canary then { st2.metrics with canary := st2.metrics.canary ++ [latency_ms] }
        else { st2.metrics with stable := st2.metrics.stable ++ [latency_ms] }
      (.served model_name, { st2 with metrics := newMetrics })

/-- The four messages `check_canary_health` can return. -/
inductive HealthMsg where
  | noActiveCanary
  | insufficientData
  | alertCanarySlower
  | acceptable
deriving DecidableEq, Repr

/-- The response dict of `check_canary_health`; keys absent from a given
response shape are `none`. -/
structure HealthReport where
  alert_triggered : Bool
  message : HealthMsg
  p_value : Option ℚ
  stable_avg_latency_ms : Option ℚ
  canary_avg_latency_ms : Option ℚ
  stable_sample_count : Option ℕ
  canary_sample_count : Option ℕ
deriving DecidableEq, Repr

/-- `np.mean`: arithmetic mean (only applied to lists of length at least 20). -/
def npMean (l : List ℚ) : ℚ := l.sum / (l.length : ℚ)

/-- Python's `round` to an integer: round half to even. -/
def roundHalfEven (q : ℚ) : ℤ :=
  let f := ⌊q⌋
  let r := q - f
  if r < 1/2 then f
  else if 1/2 < r then f + 1
  else if f % 2 = 0 then f else f + 1

/-- Python's `round(q, ndigits)`. -/
def pyRound (ndigits : ℕ) (q : ℚ) : ℚ :=
  (roundHalfEven (q * 10 ^ ndigits) : ℚ) / 10 ^ ndigits

/-- The alert condition computed at stats.py line 54 on the exact values:
`p_value < 0.05 and canary_avg > stable_avg`. -/
def alertDecision (pval : List ℚ → List ℚ → ℚ) (st : AppState) : Bool :=
  decide (pval st.metrics.canary st.metrics.stable < 5/100)
    && decide (npMean st.metrics.canary > npMean st.metrics.stable)

/-- stats.py line 24 tests `state.canary_model is None`.  At module level
`state.canary_model` is the *function object* defined at state.py line 78,
never the value `None`, so the identity test is constantly false and the
"no active canary" branch is dead code. -/
def canary_model_attr_is_none : Bool := false

/-- `check_canary_health` (stats.py lines 12-74), parametric in the Welch
t-test p-value function `pval` (scipy's `ttest_ind(canary, stable,
equal_var=False)` p-value; its numerics are opaque here).  Returns the
response and the state with `alert_status["alert_triggered"]` written when
the test ran. -/
def check_canary_health (pval : List ℚ → List ℚ → ℚ) (st : AppState) :
    HealthReport × AppState :=
  if canary_model_attr_is_none then
    ({ alert_triggered := false, message := .noActiveCanary, p_value := none,
       stable_avg_latency_ms := none, canary_avg_latency_ms := none,
       stable_sample_count := none, canary_sample_count := none }, st)
  else
    let stable_latencies := st.metrics.stable
    let canary_latencies := st.metrics.canary
    let stable_count := stable_latencies.length
    let canary_count := canary_latencies.length
    if stable_count < 20 || canary_count < 20 then
      ({ alert_triggered := false, message := .insufficientData, p_value := none,
         stable_avg_latency_ms := none, canary_avg_latency_ms := none,
         stable_sample_count := some stable_count,
         canary_sample_count := some canary_count }, st)
    else
      let stable_avg := npMean stable_latencies
      let canary_avg := npMean canary_latencies
      let p_value := pval canary_latencies stable_latencies
      let alert_triggered := decide (p_value < 5/100) && decide (canary_avg > stable_avg)
      ({ alert_triggered := alert_triggered,
         message := if alert_triggered then .alertCanarySlower else .acceptable,
         p_value := some (pyRound 3 p_value),
         stable_avg_latency_ms := some (pyRound 1 stable_avg),
         canary_avg_latency_ms := some (pyRound 1 canary_avg),
         stable_sample_count := some stable_count,
         canary_sample_count := some canary_count },
       { st with alert_status := some alert_triggered })

/-- state.py line 71: `stable_model_path = model_manager.stable_model_path`
is a one-time copy of the manager's initial stable path, evaluated at import
and never reassigned. -/
def module_stable_model_path : String := "models/model_v1.joblib"

/-- state.py line 72: the import-time copy of `canary_model_path` (`None`). -/
def module_canary_model_path : Option String := none

/-- main.py line 29 tests `state.canary_model is not None`; as at stats.py
line 24, `state.canary_model` is a function object, so this is constantly
true. -/
def canary_model_attr_is_not_none : Bool := true

/-- The response of the `/` status endpoint (main.py lines 20-30). -/
structure RootResponse where
  stable_model : String
  canary_model : Option String
  canary_active : Bool
deriving DecidableEq, Repr

/-- `root` (main.py lines 20-30): reads the module-level import-time
snapshots `state.stable_model_path` / `state.canary_model_path` and the
constant identity test on the `canary_model` function object; it reads no
field of the live application state. -/
def root (st : AppState) : RootResponse :=
  { stable_model := module_stable_model_path,
    canary_model := module_canary_model_path,
    canary_active := canary_model_attr_is_not_none }

/-- One operation of the control plane, with all its external inputs
(deploy path and wall-clock time, request timestamp and measured latency). -/
inductive Action where
  | deploy (model_path now : String)
  | rollback
  | promote
  | toggleSlowdown
  | route (timestamp : ℕ) (latency_ms : ℚ)
  | checkHealth
deriving Repr

/-- The state after one action (the response is discarded; a raised
exception leaves the state as mutated up to the raise point). -/
def stepState (fs : FS) (pval : List ℚ → List ℚ → ℚ) (st : AppState) : Action → AppState
  | .deploy p now => (deploy_canary fs now st p).2
  | .rollback => (rollback_canary fs st).2
  | .promote => (promote_canary fs st).2
  | .toggleSlowdown => (toggle_slowdown st).2
  | .route ts lat => (route_prediction fs ts lat st).2
  | .checkHealth => (check_canary_health pval st).2

/-- The state after a sequence of actions. -/
def runActions (fs : FS) (pval : List ℚ → List ℚ → ℚ) : AppState → List Action → AppState
  | st, [] => st
  | st, a :: rest => runActions fs pval (stepState fs pval st a) rest

/-- "A canary is active" exactly as the admin/routing code tests it:
`state.canary_model() is not None`, which (when no exception is raised)
holds iff the canary path is set and non-empty. -/
def canaryActiveB (st : AppState) : Bool := !(pathIsFalsy st.mm.canary_model_path)

/-- `state.alert_status.get("alert_triggered", False)`. -/
def alertFlag (st : AppState) : Bool := st.alert_status.getD false

/-- The canary path, when set, resolves without raising: empty (resolves to
`None`), already cached, or loadable. -/
def canaryResolvesB (fs : FS) (st : AppState) : Bool :=
  match st.mm.canary_model_path with
  | none => true
  | some p => p.isEmpty || (lookupCache p st.mm.cache).isSome || fs.loadOk p

/-- The stable path resolves to a model without raising (cached or loadable,
and non-empty). -/
def stableResolvesB (fs : FS) (st : AppState) : Bool :=
  !(st.mm.stable_model_path.isEmpty) &&
    ((lookupCache st.mm.stable_model_path st.mm.cache).isSome ||
      fs.loadOk st.mm.stable_model_path)

/-- Two states agree on everything except possibly the memoization cache
(the cache may lazily gain entries; it is not deployment state). -/
def sameDeployment (s t : AppState) : Prop :=
  s.mm.stable_model_path = t.mm.stable_model_path ∧
  s.mm.canary_model_path = t.mm.canary_model_path ∧
  s.canary_start_time = t.canary_start_time ∧
  s.alert_status = t.alert_status ∧
  s.metrics = t.metrics ∧
  s.simulate_slowdown = t.simulate_slowdown

/-- Inductive invariant: while no canary path is set, the alert flag is
clear and the canary latency sequence is empty. -/
def canaryIdleInv (st : AppState) : Prop :=
  st.mm.canary_model_path = none → (alertFlag st = false ∧ st.metrics.canary = [])

/-- Environment in which every path exists and loads (handle id 7). -/
def fsYes : FS := { fexists := fun _ => true, loadOk := fun _ => true, handleOf := fun _ => 7 }

/-- Environment in which every path exists but `joblib.load` raises. -/
def fsNoLoad : FS := { fexists := fun _ => true, loadOk := fun _ => false, handleOf := fun _ => 0 }

/-- Environment in which no path exists nor loads (files deleted). -/
def fsGone : FS := { fexists := fun _ => false, loadOk := fun _ => false, handleOf := fun _ => 0 }

/-- A constant p-value function (p = 0.01) for concrete evaluations. -/
def pvalSmall : List ℚ → List ℚ → ℚ := fun _ _ => 1/100

/-- The state after a successful canary deploy of `models/model_v2.joblib`
from the initial state (the handle is now cached). -/
def stCanary : AppState :=
  (deploy_canary fsYes "2026-01-01T00:00:00" initState "models/model_v2.joblib").2

/-- `stCanary` after 20 stable samples of 100ms and 20 canary samples of 150ms. -/
def stCanary20 : AppState :=
  { stCanary with metrics := { stable := List.replicate 20 100, canary := List.replicate 20 150 } }

/-- The state after a failed deploy (file exists, load raises): the canary
path is left pointing at the bad path, nothing cached. -/
def stBadDeploy : AppState :=
  (deploy_canary fsNoLoad "2026-01-01T00:00:00" initState "models/bad.joblib").2

theorem get_model_ok_paths (fs : FS) (mm : ModelManager) (mp : Option String)
    (h : Option ℕ) (mm' : ModelManager) (n : ℕ)
    (heq : mm.get_model fs mp = .ok (h, mm', n)) :
    mm'.stable_model_path = mm.stable_model_path ∧
    mm'.canary_model_path = mm.canary_model_path := by
  unfold ModelManager.get_model at heq
  split at heq
  · cases heq; exact ⟨rfl, rfl⟩
  · dsimp only at heq
    split at heq
    · cases heq; exact ⟨rfl, rfl⟩
    · split at heq
      · cases heq; exact ⟨rfl, rfl⟩
      · cases heq

theorem get_model_ok_isSome (fs : FS) (mm : ModelManager) (mp : Option String)
    (h : Option ℕ) (mm' : ModelManager) (n : ℕ)
    (heq : mm.get_model fs mp = .ok (h, mm', n)) :
    h.isSome = !(pathIsFalsy mp) := by
  unfold ModelManager.get_model at heq
  split at heq
  next hf => cases heq; simp [hf]
  next hf =>
    dsimp only at heq
    rw [Bool.not_eq_true] at hf
    split at heq
    · cases heq; simp [hf]
    · split at heq
      · cases heq; simp [hf]
      · cases heq

theorem canary_model_ok_fields (fs : FS) (st : AppState)
    (h : Option ℕ) (st1 : AppState)
    (heq : canary_model fs st = .ok (h, st1)) :
    st1.mm.stable_model_path = st.mm.stable_model_path ∧
    st1.mm.canary_model_path = st.mm.canary_model_path ∧
    st1.canary_start_time = st.canary_start_time ∧
    st1.alert_status = st.alert_status ∧
    st1.metrics = st.metrics ∧
    st1.simulate_slowdown = st.simulate_slowdown ∧
    h.isSome = canaryActiveB st := by
  unfold canary_model at heq
  split at heq
  · cases heq
  next h' mm' n heq' =>
    cases heq
    have hp := get_model_ok_paths fs st.mm _ _ _ _ heq'
    have hs := get_model_ok_isSome fs st.mm _ _ _ _ heq'
    exact ⟨hp.1, hp.2, rfl, rfl, rfl, rfl, hs⟩

theorem canary_model_falsy (fs : FS) (st : AppState)
    (hf : pathIsFalsy st.mm.canary_model_path = true) :
    canary_model fs st = .ok (none, st) := by
  unfold canary_model ModelManager.get_model
  rw [if_pos hf]

theorem canary_model_resolves (fs : FS) (st : AppState)
    (hres : canaryResolvesB fs st = true) :
    ∃ h st1, canary_model fs st = .ok (h, st1) := by
  unfold canaryResolvesB at hres
  unfold canary_model ModelManager.get_model
  cases hmp : st.mm.canary_model_path with
  | none => exact ⟨none, st, by simp [pathIsFalsy]⟩
  | some p =>
    rw [hmp] at hres
    by_cases hpe : p.isEmpty
    · exact ⟨none, st, by simp [pathIsFalsy, hpe]⟩
    · simp only [hpe, Bool.false_or] at hres
      simp only [pathIsFalsy, hpe, if_false, Bool.false_eq_true, Option.getD]
      cases hlu : lookupCache p st.mm.cache with
      | some hdl => exact ⟨some hdl, _, rfl⟩
      | none =>
        rw [hlu] at hres
        simp only [Option.isSome_none, Bool.false_or] at hres
        rw [hres]
        exact ⟨some (fs.handleOf p), _, rfl⟩

/-- C1: Deploy on a missing file (404) leaves the state untouched, but
Deploy on a file that exists and fails to load (400) does NOT leave the
deployment state unchanged: admin.py line 43 assigns the manager's canary
path before the test load at line 45 raises, so after the failed call the
canary path equals the bad path (the start time, alert flag and metrics are
unchanged).  This contradicts the claim's "leaves all deployment state
unchanged ... canary_path" for the load-failure case. -/
theorem deploy_load_failure_mutates_canary_path :
    deploy_canary fsGone "2026-01-01T00:00:00" initState "models/bad.joblib"
      = (.notFound, initState) ∧
    initState.mm.canary_model_path = none ∧
    (deploy_canary fsNoLoad "2026-01-01T00:00:00" initState "models/bad.joblib").1
      = .loadError ∧
    stBadDeploy.mm.canary_model_path = some "models/bad.joblib" ∧
    stBadDeploy.canary_start_time = initState.canary_start_time ∧
    stBadDeploy.alert_status = initState.alert_status ∧
    stBadDeploy.metrics = initState.metrics := by decide

/-- C2: with no canary active, `check_canary_health` on the initial state
does not return the "no active canary deployment to monitor" report: the
`state.canary_model is None` test at stats.py line 24 compares a function
object with `None` and is constantly false, so the code falls through to
the sample-count check and reports "insufficient data" (with
`alert_triggered = false` and the state unwritten). -/
theorem check_health_idle_reports_insufficient (pval : List ℚ → List ℚ → ℚ) :
    (check_canary_health pval initState).1.message = .insufficientData ∧
    (check_canary_health pval initState).1.message ≠ .noActiveCanary ∧
    (check_canary_health pval initState).1.alert_triggered = false ∧
    (check_canary_health pval initState).2 = initState ∧
    canary_model_attr_is_none = false := by
  exact ⟨rfl, fun h => HealthMsg.noConfusion h, rfl, rfl, rfl⟩

/-- Witness for `check_health_idle_reports_insufficient` at the concrete
p-value function `pvalSmall`. -/
theorem check_health_idle_reports_insufficient_witness :
    (check_canary_health pvalSmall initState).1.message = .insufficientData ∧
    (check_canary_health pvalSmall initState).1.message ≠ .noActiveCanary :=
  ⟨(check_health_idle_reports_insufficient pvalSmall).1,
   (check_health_idle_reports_insufficient pvalSmall).2.1⟩

/-- C3: the `/` status endpoint does not reflect the live deployment state:
it reports `canary_active = true` even in the initial state (where no
canary path is set), it still reports the import-time `canary_model = None`
after a successful deploy, and it still reports the import-time stable path
after a promote has changed the manager's stable path. -/
theorem root_ignores_live_deployment_state :
    (root initState).canary_active = true ∧
    initState.mm.canary_model_path = none ∧
    (root stCanary).canary_model = none ∧
    stCanary.mm.canary_model_path = some "models/model_v2.joblib" ∧
    (root (promote_canary fsYes stCanary).2).stable_model = "models/model_v1.joblib" ∧
    (promote_canary fsYes stCanary).2.mm.stable_model_path = "models/model_v2.joblib" := by
  decide

/-- C9: `get_model` is lazy and memoized by path.  For an uncached,
loadable, non-empty path: the first call performs exactly one underlying
load and caches the handle; a second call on the resulting manager performs
zero loads, returns the same handle, and leaves the manager unchanged (so
by iteration every subsequent call is load-free and returns the same
handle). -/
theorem get_model_memoized (fs : FS) (mm : ModelManager) (p : String)
    (hp : p.isEmpty = false) (hmiss : lookupCache p mm.cache = none)
    (hload : fs.loadOk p = true) :
    mm.get_model fs (some p)
      = .ok (some (fs.handleOf p), { mm with cache := (p, fs.handleOf p) :: mm.cache }, 1) ∧
    ModelManager.get_model fs { mm with cache := (p, fs.handleOf p) :: mm.cache } (some p)
      = .ok (some (fs.handleOf p), { mm with cache := (p, fs.handleOf p) :: mm.cache }, 0) := by
  constructor
  · unfold ModelManager.get_model
    simp [pathIsFalsy, hp, hmiss, hload]
  · unfold ModelManager.get_model
    simp [pathIsFalsy, hp, lookupCache]

/-- Witness for `get_model_memoized`: first load of `models/model_v2.joblib`
on the fresh manager. -/
theorem get_model_memoized_witness :
    initModelManager.get_model fsYes (some "models/model_v2.joblib")
      = .ok (some (fsYes.handleOf "models/model_v2.joblib"),
             { initModelManager with
                 cache := ("models/model_v2.joblib", fsYes.handleOf "models/model_v2.joblib")
                   :: initModelManager.cache }, 1) :=
  (get_model_memoized fsYes initModelManager "models/model_v2.joblib" rfl rfl rfl).1

/-- C10 counterexample: after a successful deploy the canary handle is
cached, so even when the model file has since been deleted (no path exists
or loads in `fsGone`), `rollback_canary` and `promote_canary` do not raise:
the `canary_model()` precondition call is served from the cache and both
transitions succeed — refuting "if the model file can no longer be loaded
(e.g., deleted after deploy), Rollback() and Promote() raise the load
error". -/
theorem rollback_promote_succeed_despite_deleted_file :
    stCanary.mm.canary_model_path = some "models/model_v2.joblib" ∧
    fsGone.loadOk "models/model_v2.joblib" = false ∧
    fsGone.fexists "models/model_v2.joblib" = false ∧
    (rollback_canary fsGone stCanary).1 = .success ∧
    (promote_canary fsGone stCanary).1 = .success "model_v1.joblib" "model_v2.joblib" := by
  decide

/-- C10 (amended): the `canary_model()` precondition call of Rollback and
Promote forces an actual load only when the canary path is not in the model
cache; if it is set, uncached and fails to load, both operations raise the
load error with the state unchanged, while a cached canary path (as after
any successful deploy) never makes them raise. -/
theorem rollback_promote_raise_only_when_uncached (fs : FS) (st : AppState) (p : String)
    (hpath : st.mm.canary_model_path = some p) (hp : p.isEmpty = false) :
    (lookupCache p st.mm.cache = none → fs.loadOk p = false →
       rollback_canary fs st = (.raised, st) ∧ promote_canary fs st = (.raised, st)) ∧
    (∀ h', lookupCache p st.mm.cache = some h' →
       (rollback_canary fs st).1 ≠ .raised ∧ (promote_canary fs st).1 ≠ .raised) := by
  constructor
  · intro hmiss hload
    have hcm : canary_model fs st = .error () := by
      unfold canary_model ModelManager.get_model
      rw [hpath]
      simp [pathIsFalsy, hp, hmiss, hload]
    constructor
    · unfold rollback_canary; rw [hcm]
    · unfold promote_canary; rw [hcm]
  · intro h' hhit
    have hcm : canary_model fs st = .ok (some h', st) := by
      unfold canary_model ModelManager.get_model
      rw [hpath]
      simp [pathIsFalsy, hp, hhit]
    constructor
    · unfold rollback_canary; rw [hcm]; simp
    · unfold promote_canary; rw [hcm]
      dsimp only
      split <;> simp

/-- Witness for `rollback_promote_raise_only_when_uncached`: the raise case
at the state left by a failed deploy (bad path set, uncached), and the
no-raise case at the cached post-deploy state. -/
theorem rollback_promote_raise_only_when_uncached_witness :
    (rollback_canary fsNoLoad stBadDeploy = (.raised, stBadDeploy) ∧
       promote_canary fsNoLoad stBadDeploy = (.raised, stBadDeploy)) ∧
    (rollback_canary fsGone stCanary).1 ≠ .raised := by
  have h1 := (rollback_promote_raise_only_when_uncached fsNoLoad stBadDeploy
      "models/bad.joblib" (by decide) (by decide)).1 (by decide) (by decide)
  have h2 := (rollback_promote_raise_only_when_uncached fsGone stCanary
      "models/model_v2.joblib" (by decide) (by decide)).2 7 (by decide)
  exact ⟨h1, h2.1⟩

/-- C4: the Promote contract, on states whose canary path (when set)
resolves without raising.  With no active canary, the reported
no-active-canary error is returned and the state is unchanged; with an
active canary and the alert flag set, the reported active-alerts error is
returned and the deployment state is unchanged (only the lazy-load cache
may differ); with an active canary and no alert, promotion succeeds, the
stable path becomes the former canary path, the canary, start time and
alert are cleared, metrics are reset, and the response carries the
basenames of the previous and new stable paths. -/
theorem promote_canary_contract (fs : FS) (st : AppState)
    (hres : canaryResolvesB fs st = true) :
    (canaryActiveB st = false → promote_canary fs st = (.noActiveCanary, st)) ∧
    (canaryActiveB st = true → alertFlag st = true →
       (promote_canary fs st).1 = .activeAlerts ∧
       sameDeployment (promote_canary fs st).2 st) ∧
    (∀ p, st.mm.canary_model_path = some p → canaryActiveB st = true →
       alertFlag st = false →
       (promote_canary fs st).1
           = .success (basename st.mm.stable_model_path) (basename p) ∧
       (promote_canary fs st).2.mm.stable_model_path = p ∧
       (promote_canary fs st).2.mm.canary_model_path = none ∧
       (promote_canary fs st).2.canary_start_time = none ∧
       (promote_canary fs st).2.alert_status = none ∧
       (promote_canary fs st).2.metrics = emptyMetrics) := by
  refine ⟨?_, ?_, ?_⟩
  · intro hin
    have hf : pathIsFalsy st.mm.canary_model_path = true := by
      unfold canaryActiveB at hin
      simpa using hin
    unfold promote_canary
    rw [canary_model_falsy fs st hf]
  · intro hact halert
    obtain ⟨h, st1, heq⟩ := canary_model_resolves fs st hres
    obtain ⟨h1, h2, h3, h4, h5, h6, h7⟩ := canary_model_ok_fields fs st h st1 heq
    cases h with
    | none => rw [hact] at h7; exact absurd h7 (by simp)
    | some hdl =>
      unfold promote_canary
      rw [heq]
      dsimp only
      unfold alertFlag at halert
      have hal1 : st1.alert_status.getD false = true := by rw [h4]; exact halert
      rw [if_pos hal1]
      exact ⟨rfl, h1, h2, h3, h4, h5, h6⟩
  · intro p hp hact hal
    obtain ⟨h, st1, heq⟩ := canary_model_resolves fs st hres
    obtain ⟨h1, h2, h3, h4, h5, h6, h7⟩ := canary_model_ok_fields fs st h st1 heq
    cases h with
    | none => rw [hact] at h7; exact absurd h7 (by simp)
    | some hdl =>
      unfold promote_canary
      rw [heq]
      dsimp only
      unfold alertFlag at hal
      have hal1 : ¬ (st1.alert_status.getD false = true) := by
        rw [h4, hal]; exact Bool.false_ne_true
      rw [if_neg hal1]
      refine ⟨?_, ?_, ?_, ?_, ?_, ?_⟩ <;> simp [h1, h2, hp]

/-- Witness for `promote_canary_contract`: successful promotion from the
post-deploy state `stCanary`. -/
theorem promote_canary_contract_witness :
    (promote_canary fsYes stCanary).1
        = .success (basename stCanary.mm.stable_model_path)
            (basename "models/model_v2.joblib") ∧
    (promote_canary fsYes stCanary).2.mm.stable_model_path = "models/model_v2.joblib" ∧
    (promote_canary fsYes stCanary).2.mm.canary_model_path = none ∧
    (promote_canary fsYes stCanary).2.metrics = emptyMetrics := by
  have h := (promote_canary_contract fsYes stCanary (by decide)).2.2
      "models/model_v2.joblib" (by decide) (by decide) (by decide)
  exact ⟨h.1, h.2.1, h.2.2.1, h.2.2.2.2.2⟩

/-- C5: whenever the health check reaches the statistical test (canary
active, at least 20 samples per variant), the alert decision — both in the
report and as written to `alert_status` — equals
`p_value < 0.05 AND canary_mean > stable_mean` computed on the exact,
unrounded p-value and means; the 3-decimal p-value rounding and 1-decimal
mean rounding appear only in the returned report fields. -/
theorem check_health_alert_decision (pval : List ℚ → List ℚ → ℚ) (st : AppState)
    (hact : canaryActiveB st = true)
    (hs : 20 ≤ st.metrics.stable.length) (hc : 20 ≤ st.metrics.canary.length) :
    (check_canary_health pval st).1.alert_triggered = alertDecision pval st ∧
    (check_canary_health pval st).2
        = { st with alert_status := some (alertDecision pval st) } ∧
    (check_canary_health pval st).1.p_value
        = some (pyRound 3 (pval st.metrics.canary st.metrics.stable)) ∧
    (check_canary_health pval st).1.stable_avg_latency_ms
        = some (pyRound 1 (npMean st.metrics.stable)) ∧
    (check_canary_health pval st).1.canary_avg_latency_ms
        = some (pyRound 1 (npMean st.metrics.canary)) := by
  unfold check_canary_health
  have h1 : (st.metrics.stable.length < 20 || st.metrics.canary.length < 20) = false := by
    simp only [Bool.or_eq_false_iff, decide_eq_false_iff_not, Nat.not_lt]
    exact ⟨hs, hc⟩
  simp only [canary_model_attr_is_none, Bool.false_eq_true, if_false, h1]
  refine ⟨?_, ?_, ?_, ?_, ?_⟩ <;> trivial

/-- Witness for `check_health_alert_decision` at `stCanary20` (20 stable
samples of 100ms, 20 canary samples of 150ms, p = 0.01): the alert fires. -/
theorem check_health_alert_decision_witness :
    (check_canary_health pvalSmall stCanary20).1.alert_triggered
        = alertDecision pvalSmall stCanary20 ∧
    (check_canary_health pvalSmall stCanary20).1.alert_triggered = true := by
  have h := check_health_alert_decision pvalSmall stCanary20 (by decide) (by decide) (by decide)
  refine ⟨h.1, ?_⟩
  rw [h.1]
  simp only [alertDecision, pvalSmall, stCanary20, npMean, Bool.and_eq_true, decide_eq_true_iff]
  constructor
  · norm_num
  · simp only [List.sum_replicate, List.length_replicate]
    norm_num

theorem route_selection_aux (fs : FS) (ts : ℕ) (lat : ℚ) (st : AppState)
    (hok : (route_prediction fs ts lat st).1 ≠ .raised) :
    (route_prediction fs ts lat st).1
      = .served (if canaryActiveB st && (ts % 10 == 0) then .canary else .stable) := by
  unfold route_prediction at hok ⊢
  cases heq : canary_model fs st with
  | error e =>
      rw [heq] at hok
      exact absurd rfl hok
  | ok pr =>
      obtain ⟨cm, st1⟩ := pr
      rw [heq] at hok
      dsimp only at hok ⊢
      have h7 : cm.isSome = canaryActiveB st :=
        (canary_model_ok_fields fs st cm st1 heq).2.2.2.2.2.2
      rw [h7] at hok ⊢
      cases heq2 : (if canaryActiveB st && (ts % 10 == 0) then canary_model fs st1
          else stable_model fs st1) with
      | error e =>
          rw [heq2] at hok
          exact absurd rfl hok
      | ok pr2 =>
          obtain ⟨m, st2⟩ := pr2
          rw [heq2] at hok
          cases m with
          | none => exact absurd rfl hok
          | some hdl => rfl

/-- C6: when `route_prediction` does not raise, its variant choice is the
deterministic function of the request timestamp and canary state computed
at inference.py line 34: the canary is served iff a canary is active and
the millisecond timestamp is divisible by 10; with no canary active every
timestamp is served by stable; and any two non-raising calls with the same
timestamp and the same canary-active state serve the same variant. -/
theorem route_prediction_selection (fs : FS) (ts : ℕ) (lat : ℚ) (st : AppState)
    (hok : (route_prediction fs ts lat st).1 ≠ .raised) :
    (route_prediction fs ts lat st).1
      = .served (if canaryActiveB st && (ts % 10 == 0) then .canary else .stable) ∧
    (canaryActiveB st = false → (route_prediction fs ts lat st).1 = .served .stable) ∧
    (∀ st', canaryActiveB st' = canaryActiveB st →
       (route_prediction fs ts lat st').1 ≠ .raised →
       (route_prediction fs ts lat st').1 = (route_prediction fs ts lat st).1) := by
  refine ⟨route_selection_aux fs ts lat st hok, ?_, ?_⟩
  · intro hin
    rw [route_selection_aux fs ts lat st hok, hin]
    rfl
  · intro st' hsame hok'
    rw [route_selection_aux fs ts lat st' hok', route_selection_aux fs ts lat st hok, hsame]

/-- Witness for `route_prediction_selection`: timestamp 20 with the active
canary `stCanary` is served by the canary; the hypothesis (no raise) is
discharged by evaluation. -/
theorem route_prediction_selection_witness :
    (route_prediction fsYes 20 5 stCanary).1
      = .served (if canaryActiveB stCanary && ((20:ℕ) % 10 == 0) then .canary else .stable) ∧
    (route_prediction fsYes 20 5 stCanary).1 = .served .canary := by
  have h := route_prediction_selection fsYes 20 5 stCanary (by decide)
  refine ⟨h.1, ?_⟩
  rw [h.1]
  decide

theorem deploy_canary_success_eq (fs : FS) (now mp : String) (st : AppState)
    (hex : ¬ fs.fexists mp = false)
    (h : Option ℕ) (mm2 : ModelManager) (n : ℕ)
    (heq : ModelManager.get_model fs { st.mm with canary_model_path := some mp } (some mp)
      = .ok (h, mm2, n)) :
    deploy_canary fs now st mp
      = (.success mp now,
         { st with mm := mm2, canary_start_time := some now, alert_status := none,
                   metrics := emptyMetrics }) := by
  unfold deploy_canary
  rw [if_neg hex]
  dsimp only
  rw [heq]

/-- C7: after every successful Deploy, Rollback or Promote, the metrics
store equals the reset value, whose two latency sequences are both empty. -/
theorem transitions_reset_metrics (fs : FS) (now mp : String) (st : AppState) :
    (∀ p t, (deploy_canary fs now st mp).1 = .success p t →
       (deploy_canary fs now st mp).2.metrics = emptyMetrics) ∧
    ((rollback_canary fs st).1 = .success →
       (rollback_canary fs st).2.metrics = emptyMetrics) ∧
    (∀ a b, (promote_canary fs st).1 = .success a b →
       (promote_canary fs st).2.metrics = emptyMetrics) ∧
    emptyMetrics.stable = [] ∧ emptyMetrics.canary = [] := by
  refine ⟨?_, ?_, ?_, rfl, rfl⟩
  · intro p t hsucc
    by_cases hex : fs.fexists mp = false
    · have hd : deploy_canary fs now st mp = (.notFound, st) := by
        unfold deploy_canary; rw [if_pos hex]
      rw [hd] at hsucc; exact absurd hsucc (by simp)
    · cases heq : ModelManager.get_model fs { st.mm with canary_model_path := some mp }
          (some mp) with
      | error e =>
          have hd : deploy_canary fs now st mp
              = (.loadError, { st with mm := { st.mm with canary_model_path := some mp } }) := by
            unfold deploy_canary; rw [if_neg hex]; dsimp only; rw [heq]
          rw [hd] at hsucc; exact absurd hsucc (by simp)
      | ok tr =>
          obtain ⟨h, mm2, n⟩ := tr
          rw [deploy_canary_success_eq fs now mp st hex h mm2 n heq]
  · intro hsucc
    cases heq : canary_model fs st with
    | error e =>
        have hd : rollback_canary fs st = (.raised, st) := by
          unfold rollback_canary; rw [heq]
        rw [hd] at hsucc; exact absurd hsucc (by simp)
    | ok pr =>
        obtain ⟨cm, st1⟩ := pr
        cases cm with
        | none =>
            have hd : rollback_canary fs st = (.noActiveCanary, st1) := by
              unfold rollback_canary; rw [heq]
            rw [hd] at hsucc; exact absurd hsucc (by simp)
        | some hdl =>
            unfold rollback_canary; rw [heq]
  · intro a b hsucc
    cases heq : canary_model fs st with
    | error e =>
        have hd : promote_canary fs st = (.raised, st) := by
          unfold promote_canary; rw [heq]
        rw [hd] at hsucc; exact absurd hsucc (by simp)
    | ok pr =>
        obtain ⟨cm, st1⟩ := pr
        cases cm with
        | none =>
            have hd : promote_canary fs st = (.noActiveCanary, st1) := by
              unfold promote_canary; rw [heq]
            rw [hd] at hsucc; exact absurd hsucc (by simp)
        | some hdl =>
            by_cases halt : st1.alert_status.getD false = true
            · have hd : promote_canary fs st = (.activeAlerts, st1) := by
                unfold promote_canary; rw [heq]; dsimp only; rw [if_pos halt]
              rw [hd] at hsucc; exact absurd hsucc (by simp)
            · unfold promote_canary; rw [heq]; dsimp only; rw [if_neg halt]

/-- Witness for `transitions_reset_metrics`: a successful deploy from the
initial state, and a successful rollback and promote from the populated
state `stCanary20`. -/
theorem transitions_reset_metrics_witness :
    (deploy_canary fsYes "2026-01-01T00:00:00" initState "models/model_v2.joblib").2.metrics
        = emptyMetrics ∧
    (rollback_canary fsYes stCanary20).2.metrics = emptyMetrics ∧
    (promote_canary fsYes stCanary20).2.metrics = emptyMetrics := by
  have h1 := transitions_reset_metrics fsYes "2026-01-01T00:00:00" "models/model_v2.joblib"
      initState
  have h2 := transitions_reset_metrics fsYes "t" "m" stCanary20
  exact ⟨h1.1 "models/model_v2.joblib" "2026-01-01T00:00:00" (by decide),
         h2.2.1 (by decide),
         h2.2.2.1 "model_v1.joblib" "model_v2.joblib" (by decide)⟩

theorem stable_model_ok_fields (fs : FS) (st : AppState)
    (h : Option ℕ) (st1 : AppState)
    (heq : stable_model fs st = .ok (h, st1)) :
    st1.mm.canary_model_path = st.mm.canary_model_path ∧
    st1.alert_status = st.alert_status ∧
    st1.metrics = st.metrics := by
  unfold stable_model at heq
  split at heq
  · cases heq
  next h' mm' n heq' =>
    cases heq
    have hp := get_model_ok_paths fs st.mm _ _ _ _ heq'
    exact ⟨hp.2, rfl, rfl⟩

theorem model_call_ok_fields (fs : FS) (b : Bool) (s : AppState) (m : Option ℕ)
    (s' : AppState)
    (heq : (if b then canary_model fs s else stable_model fs s) = .ok (m, s')) :
    s'.mm.canary_model_path = s.mm.canary_model_path ∧
    s'.alert_status = s.alert_status ∧
    s'.metrics = s.metrics := by
  cases b
  · simp only [Bool.false_eq_true, if_false] at heq
    exact stable_model_ok_fields fs s m s' heq
  · rw [if_pos rfl] at heq
    have hf := canary_model_ok_fields fs s m s' heq
    exact ⟨hf.2.1, hf.2.2.2.1, hf.2.2.2.2.1⟩

theorem deploy_preserves_idleInv (fs : FS) (now mp : String) (st : AppState)
    (h : canaryIdleInv st) : canaryIdleInv (deploy_canary fs now st mp).2 := by
  by_cases hex : fs.fexists mp = false
  · have hd : deploy_canary fs now st mp = (.notFound, st) := by
      unfold deploy_canary; rw [if_pos hex]
    rw [hd]; exact h
  · cases heq : ModelManager.get_model fs { st.mm with canary_model_path := some mp }
        (some mp) with
    | error e =>
        have hd : deploy_canary fs now st mp
            = (.loadError, { st with mm := { st.mm with canary_model_path := some mp } }) := by
          unfold deploy_canary; rw [if_neg hex]; dsimp only; rw [heq]
        rw [hd]
        intro hc
        simp at hc
    | ok tr =>
        obtain ⟨hh, mm2, n⟩ := tr
        rw [deploy_canary_success_eq fs now mp st hex hh mm2 n heq]
        intro hc
        exact ⟨rfl, rfl⟩

theorem rollback_preserves_idleInv (fs : FS) (st : AppState)
    (h : canaryIdleInv st) : canaryIdleInv (rollback_canary fs st).2 := by
  cases heq : canary_model fs st with
  | error e =>
      have hd : rollback_canary fs st = (.raised, st) := by
        unfold rollback_canary; rw [heq]
      rw [hd]; exact h
  | ok pr =>
      obtain ⟨cm, st1⟩ := pr
      obtain ⟨f1, f2, f3, f4, f5, f6, f7⟩ := canary_model_ok_fields fs st cm st1 heq
      have htrans : canaryIdleInv st1 := by
        intro hc
        rw [f2] at hc
        obtain ⟨ha, hm⟩ := h hc
        exact ⟨by unfold alertFlag at ha ⊢; rw [f4]; exact ha, by rw [f5]; exact hm⟩
      cases cm with
      | none =>
          have hd : rollback_canary fs st = (.noActiveCanary, st1) := by
            unfold rollback_canary; rw [heq]
          rw [hd]; exact htrans
      | some hdl =>
          have hd : (rollback_canary fs st).2.alert_status = none ∧
              (rollback_canary fs st).2.metrics = emptyMetrics := by
            unfold rollback_canary; rw [heq]
            exact ⟨rfl, rfl⟩
          intro hc
          exact ⟨by unfold alertFlag; rw [hd.1]; rfl, by rw [hd.2]; rfl⟩

theorem promote_preserves_idleInv (fs : FS) (st : AppState)
    (h : canaryIdleInv st) : canaryIdleInv (promote_canary fs st).2 := by
  cases heq : canary_model fs st with
  | error e =>
      have hd : promote_canary fs st = (.raised, st) := by
        unfold promote_canary; rw [heq]
      rw [hd]; exact h
  | ok pr =>
      obtain ⟨cm, st1⟩ := pr
      obtain ⟨f1, f2, f3, f4, f5, f6, f7⟩ := canary_model_ok_fields fs st cm st1 heq
      have htrans : canaryIdleInv st1 := by
        intro hc
        rw [f2] at hc
        obtain ⟨ha, hm⟩ := h hc
        exact ⟨by unfold alertFlag at ha ⊢; rw [f4]; exact ha, by rw [f5]; exact hm⟩
      cases cm with
      | none =>
          have hd : promote_canary fs st = (.noActiveCanary, st1) := by
            unfold promote_canary; rw [heq]
          rw [hd]; exact htrans
      | some hdl =>
          by_cases halt : st1.alert_status.getD false = true
          · have hd : promote_canary fs st = (.activeAlerts, st1) := by
              unfold promote_canary; rw [heq]; dsimp only; rw [if_pos halt]
            rw [hd]; exact htrans
          · have hd : (promote_canary fs st).2.alert_status = none ∧
                (promote_canary fs st).2.metrics = emptyMetrics := by
              unfold promote_canary; rw [heq]; dsimp only; rw [if_neg halt]
              exact ⟨rfl, rfl⟩
            intro hc
            exact ⟨by unfold alertFlag; rw [hd.1]; rfl, by rw [hd.2]; rfl⟩

theorem toggle_preserves_idleInv (st : AppState)
    (h : canaryIdleInv st) : canaryIdleInv (toggle_slowdown st).2 := by
  intro hc
  exact h hc

theorem route_preserves_idleInv (fs : FS) (ts : ℕ) (lat : ℚ) (st : AppState)
    (h : canaryIdleInv st) : canaryIdleInv (route_prediction fs ts lat st).2 := by
  cases heq : canary_model fs st with
  | error e =>
      have hd : route_prediction fs ts lat st = (.raised, st) := by
        unfold route_prediction; rw [heq]
      rw [hd]; exact h
  | ok pr =>
      obtain ⟨cm, st1⟩ := pr
      obtain ⟨f1, f2, f3, f4, f5, f6, f7⟩ := canary_model_ok_fields fs st cm st1 heq
      have htrans : canaryIdleInv st1 := by
        intro hc
        rw [f2] at hc
        obtain ⟨ha, hm⟩ := h hc
        exact ⟨by unfold alertFlag at ha ⊢; rw [f4]; exact ha, by rw [f5]; exact hm⟩
      cases heq2 : (if cm.isSome && (ts % 10 == 0) then canary_model fs st1
          else stable_model fs st1) with
      | error e =>
          have hd : route_prediction fs ts lat st = (.raised, st1) := by
            unfold route_prediction; rw [heq]; dsimp only; rw [heq2]
          rw [hd]; exact htrans
      | ok pr2 =>
          obtain ⟨m, st2⟩ := pr2
          obtain ⟨g2, g4, g5⟩ := model_call_ok_fields fs _ st1 m st2 heq2
          have htrans2 : canaryIdleInv st2 := by
            intro hc
            rw [g2] at hc
            obtain ⟨ha, hm⟩ := htrans hc
            exact ⟨by unfold alertFlag at ha ⊢; rw [g4]; exact ha, by rw [g5]; exact hm⟩
          cases m with
          | none =>
              have hd : route_prediction fs ts lat st = (.raised, st2) := by
                unfold route_prediction; rw [heq]; dsimp only; rw [heq2]
              rw [hd]; exact htrans2
          | some hdl =>
              have hd : route_prediction fs ts lat st
                  = (.served (if cm.isSome && (ts % 10 == 0) then .canary else .stable),
                     { st2 with metrics :=
                        if cm.isSome && (ts % 10 == 0) then
                          { st2.metrics with canary := st2.metrics.canary ++ [lat] }
                        else { st2.metrics with stable := st2.metrics.stable ++ [lat] } }) := by
                unfold route_prediction; rw [heq]; dsimp only; rw [heq2]
              rw [hd]
              intro hc
              dsimp only at hc
              have hcs : st.mm.canary_model_path = none := by rw [← f2, ← g2]; exact hc
              have hcan0 : canaryActiveB st = false := by
                unfold canaryActiveB; rw [hcs]; rfl
              have hcm : cm.isSome = false := by rw [f7, hcan0]
              obtain ⟨ha2, hm2⟩ := htrans2 hc
              constructor
              · exact ha2
              · dsimp only
                simp only [hcm, Bool.false_and, Bool.false_eq_true, if_false]
                exact hm2

theorem check_health_preserves_idleInv (pval : List ℚ → List ℚ → ℚ) (st : AppState)
    (h : canaryIdleInv st) : canaryIdleInv (check_canary_health pval st).2 := by
  unfold check_canary_health
  dsimp only
  split
  · exact h
  · split
    · exact h
    · next hcond =>
        intro hc
        obtain ⟨ha, hm⟩ := h hc
        exact absurd (by rw [hm]; simp) hcond

theorem stepState_preserves_idleInv (fs : FS) (pval : List ℚ → List ℚ → ℚ)
    (st : AppState) (a : Action) (h : canaryIdleInv st) :
    canaryIdleInv (stepState fs pval st a) := by
  cases a with
  | deploy p now => exact deploy_preserves_idleInv fs now p st h
  | rollback => exact rollback_preserves_idleInv fs st h
  | promote => exact promote_preserves_idleInv fs st h
  | toggleSlowdown => exact toggle_preserves_idleInv st h
  | route ts lat => exact route_preserves_idleInv fs ts lat st h
  | checkHealth => exact check_health_preserves_idleInv pval st h

theorem runActions_preserves_idleInv (fs : FS) (pval : List ℚ → List ℚ → ℚ)
    (acts : List Action) :
    ∀ st : AppState, canaryIdleInv st → canaryIdleInv (runActions fs pval st acts) := by
  induction acts with
  | nil => intro st h; exact h
  | cons a rest ih =>
      intro st h
      exact ih _ (stepState_preserves_idleInv fs pval st a h)

/-- C8: in every state reachable from the initial state by any sequence of
Deploy, Rollback, Promote, ToggleSlowdown, route and checkHealth
operations (under any file system and any p-value function), whenever the
canary path is `None` the alert flag reads false. -/
theorem reachable_no_canary_no_alert (fs : FS) (pval : List ℚ → List ℚ → ℚ)
    (acts : List Action)
    (h : (runActions fs pval initState acts).mm.canary_model_path = none) :
    alertFlag (runActions fs pval initState acts) = false := by
  have hinv : canaryIdleInv (runActions fs pval initState acts) :=
    runActions_preserves_idleInv fs pval acts initState (fun _ => ⟨rfl, rfl⟩)
  exact (hinv h).1

/-- Witness for `reachable_no_canary_no_alert`: deploy followed by
rollback reaches a state with no canary path, where the alert flag reads
false. -/
theorem reachable_no_canary_no_alert_witness :
    alertFlag (runActions fsYes pvalSmall initState
      [.deploy "models/model_v2.joblib" "2026-01-01T00:00:00", .rollback]) = false :=
  reachable_no_canary_no_alert fsYes pvalSmall
    [.deploy "models/model_v2.joblib" "2026-01-01T00:00:00", .rollback] (by decide)

end MLOps
